import Mathlib

/-
Verification development for the outfit-to-wardrobe matching engine of the
fashionmate repository.  The definitions below are a shallow embedding of
src/ml-backend/services/outfitAnalyzer/src/code/outfit_with_wardrobe.py and of
the ranking step of outfit_service.py.  Python floats are modelled as exact
rationals, Python dictionaries with a fixed set of optional string keys are
modelled as structures of Option String (none meaning the key is absent), and
Python exceptions are modelled with Except.
-/

namespace Fashionmate

/-- PyErr models a Python exception escaping the matcher; the only exception
the embedded code can raise is a KeyError, carrying the missing key. -/
inductive PyErr where
  | keyError (key : String)
deriving DecidableEq

/-- WardrobeItem mirrors the pydantic model of the source: item_id and type are
required strings, every other attribute is optional. -/
structure WardrobeItem where
  item_id : String
  type : String
  color : Option String
  pattern : Option String
  fabric : Option String
  description : Option String
  brand : Option String
  image_url : Option String
  created_at : Option Int
deriving DecidableEq

/-- SuggestedItem models one entry of a clothing_items list: a dictionary whose
relevant keys are all optional strings; none means the key is absent. -/
structure SuggestedItem where
  type : Option String
  category : Option String
  color : Option String
  pattern : Option String
  fabric : Option String
  description : Option String
deriving DecidableEq

/-- isKeptChar is the character class [a-z0-9] kept by the normalizing regex. -/
def isKeptChar (c : Char) : Bool :=
  (('a' ≤ c && c ≤ 'z') || ('0' ≤ c && c ≤ '9'))

/-- normStr models normalize on a string argument: lowercase the string
(character by character, as str.lower does) and strip every character outside
[a-z0-9].  The early return of the source for the empty string produces the
same value. -/
def normStr (s : String) : String :=
  String.mk ((s.toList.map Char.toLower).filter isKeptChar)

/-- normalize models the source function on a possibly absent argument: a None
argument is falsy and yields the empty string. -/
def normalize (t : Option String) : String :=
  match t with
  | none => ""
  | some s => normStr s

/-
Model of difflib.SequenceMatcher(None, a, b).ratio() as used by
get_text_similarity.  The matcher is instantiated with isjunk=None, so the
junk set is empty; the autojunk rule of the constructor is kept: when b has at
least 200 elements, characters occurring more than len(b)//100 + 1 times are
dropped from the index b2j.
-/

/-- b2j lists, in ascending order, the positions of a character in b, with the
autojunk rule applied. -/
def b2j (b : List Char) (c : Char) : List Nat :=
  let idxs := (List.range b.length).filter (fun j => b.get? j == some c)
  if b.length ≥ 200 && idxs.length > b.length / 100 + 1 then [] else idxs

/-- lookupD is dictionary lookup with a default, over an association list. -/
def lookupD (m : List (Nat × Nat)) (k d : Nat) : Nat :=
  match m.find? (fun p => p.fst == k) with
  | some p => p.snd
  | none => d

/-- flmRow is one row of the dynamic program of find_longest_match: it scans
the positions of the current character of a inside b, extending runs recorded
in j2len, and keeps the best block seen so far. -/
def flmRow (j2len : List (Nat × Nat)) (blo bhi i : Nat) :
    List Nat → List (Nat × Nat) → Nat × Nat × Nat → List (Nat × Nat) × (Nat × Nat × Nat)
  | [], newj2len, best => (newj2len, best)
  | j :: js, newj2len, best =>
    if j < blo then flmRow j2len blo bhi i js newj2len best
    else if bhi ≤ j then (newj2len, best)
    else
      let k := (if j = 0 then 0 else lookupD j2len (j - 1) 0) + 1
      let best2 := if k > best.2.2 then (i + 1 - k, j + 1 - k, k) else best
      flmRow j2len blo bhi i js ((j, k) :: newj2len) best2

/-- flmRows runs flmRow for every index i of the window of a. -/
def flmRows (a : List Char) (bj : Char → List Nat) (blo bhi : Nat) :
    List Nat → List (Nat × Nat) → Nat × Nat × Nat → Nat × Nat × Nat
  | [], _, best => best
  | i :: is, j2len, best =>
    let r := flmRow j2len blo bhi i (bj (a.getD i ' ')) [] best
    flmRows a bj blo bhi is r.1 r.2

/-- extendLeft models the leftward extension loop of find_longest_match with an
empty junk set; the fuel bounds the number of iterations and is chosen at the
call site to exceed the largest possible count. -/
def extendLeft (a b : List Char) (alo blo : Nat) : Nat → Nat × Nat × Nat → Nat × Nat × Nat
  | 0, best => best
  | fuel + 1, (bi, bj2, bs) =>
    if alo < bi ∧ blo < bj2 ∧ a.get? (bi - 1) = b.get? (bj2 - 1) then
      extendLeft a b alo blo fuel (bi - 1, bj2 - 1, bs + 1)
    else (bi, bj2, bs)

/-- extendRight models the rightward extension loop of find_longest_match with
an empty junk set. -/
def extendRight (a b : List Char) (ahi bhi : Nat) : Nat → Nat × Nat × Nat → Nat × Nat × Nat
  | 0, best => best
  | fuel + 1, (bi, bj2, bs) =>
    if bi + bs < ahi ∧ bj2 + bs < bhi ∧ a.get? (bi + bs) = b.get? (bj2 + bs) then
      extendRight a b ahi bhi fuel (bi, bj2, bs + 1)
    else (bi, bj2, bs)

/-- findLongestMatch models SequenceMatcher.find_longest_match on the window
a[alo:ahi] x b[blo:bhi], returning (besti, bestj, bestsize). -/
def findLongestMatch (a b : List Char) (alo ahi blo bhi : Nat) : Nat × Nat × Nat :=
  let best := flmRows a (b2j b) blo bhi ((List.range ahi).drop alo) [] (alo, blo, 0)
  let best := extendLeft a b alo blo (best.1 + 1) best
  extendRight a b ahi bhi (ahi + 1) best

/-- matchingTotal sums the sizes of the matching blocks that
get_matching_blocks produces by recursive splitting around the longest match;
the fuel bounds the recursion depth (each call strictly shrinks the windows,
so the fuel chosen at the call site is never exhausted). -/
def matchingTotal (a b : List Char) : Nat → Nat → Nat → Nat → Nat → Nat
  | 0, _, _, _, _ => 0
  | fuel + 1, alo, ahi, blo, bhi =>
    let r := findLongestMatch a b alo ahi blo bhi
    if r.2.2 = 0 then 0
    else
      r.2.2
        + (if alo < r.1 ∧ blo < r.2.1 then matchingTotal a b fuel alo r.1 blo r.2.1 else 0)
        + (if r.1 + r.2.2 < ahi ∧ r.2.1 + r.2.2 < bhi then
            matchingTotal a b fuel (r.1 + r.2.2) ahi (r.2.1 + r.2.2) bhi else 0)

/-- ratioQ models SequenceMatcher.ratio: twice the total matched size divided
by the total length, and 1.0 when both sequences are empty. -/
def ratioQ (a b : List Char) : ℚ :=
  let total := matchingTotal a b (a.length + b.length + 1) 0 a.length 0 b.length
  if a.length + b.length = 0 then 1
  else (2 * (total : ℚ)) / ((a.length : ℚ) + (b.length : ℚ))

/-- get_text_similarity models the source function: 0 when either argument is
falsy (absent or empty), otherwise the SequenceMatcher ratio of the normalized
strings. -/
def get_text_similarity (t1 t2 : Option String) : ℚ :=
  if t1.getD "" = "" ∨ t2.getD "" = "" then 0
  else ratioQ (normalize t1).toList (normalize t2).toList

/-- resolvedType models summary_item.get with a category fallback, as written
in get_match_score. -/
def resolvedType (s : SuggestedItem) : String :=
  (s.type.getD (s.category.getD ""))

/-- isSubchars decides whether s occurs contiguously inside t, the Python
substring containment test. -/
def isSubchars (s t : List Char) : Bool :=
  (List.range (t.length + 1)).any (fun i => (t.drop i).take s.length == s)

/-- colorBonus is the 2-point color increment of get_match_score. -/
def colorBonus (s : SuggestedItem) (w : WardrobeItem) : ℚ :=
  if normalize w.color = normStr (s.color.getD "") then 2 else 0

/-- patternBonus is the 4-point pattern increment of get_match_score. -/
def patternBonus (s : SuggestedItem) (w : WardrobeItem) : ℚ :=
  if normalize w.pattern = normStr (s.pattern.getD "") then 4 else 0

/-- fabricBonus is the 3-point fabric increment of get_match_score: both
normalized fabrics non-empty and one a substring of the other. -/
def fabricBonus (s : SuggestedItem) (w : WardrobeItem) : ℚ :=
  let mat1 := normalize w.fabric
  let mat2 := normStr (s.fabric.getD "")
  if mat1 ≠ "" ∧ mat2 ≠ "" ∧
      (isSubchars mat1.toList mat2.toList ∨ isSubchars mat2.toList mat1.toList) then 3 else 0

/-- descBonus is the description-similarity increment of get_match_score, up
to 1.5 points. -/
def descBonus (s : SuggestedItem) (w : WardrobeItem) : ℚ :=
  get_text_similarity w.description (some (s.description.getD "")) * ((3 : ℚ) / 2)

/-- get_match_score models the source function: -1 on a normalized type
mismatch, otherwise the base point plus the attribute increments accumulated
by the source. -/
def get_match_score (s : SuggestedItem) (w : WardrobeItem) : ℚ :=
  if normStr w.type ≠ normStr (resolvedType s) then -1
  else 1 + colorBonus s w + patternBonus s w + fabricBonus s w + descBonus s w

/-- penalize models the near-duplicate penalty loop of find_best_match:
subtract twice the description similarity for every already matched item whose
description similarity with the candidate exceeds 0.7. -/
def penalize (item : WardrobeItem) (mset : List WardrobeItem) (sc : ℚ) : ℚ :=
  mset.foldl
    (fun acc m =>
      let ds := get_text_similarity item.description m.description
      if ds > (7 : ℚ) / 10 then acc - ds * 2 else acc) sc

/-- adjusted_score is the candidate score used by find_best_match: the raw
get_match_score, penalized only when the matching set is non-empty (truthy)
and the raw score is positive. -/
def adjusted_score (s : SuggestedItem) (mset : List WardrobeItem) (item : WardrobeItem) : ℚ :=
  let sc := get_match_score s item
  if mset ≠ [] ∧ sc > 0 then penalize item mset sc else sc

/-- findBestGo is the loop of find_best_match: scan the wardrobe, skip used
items, read suggested_item type with a KeyError when the key is absent, filter
to equal normalized types, and keep the candidate with the strictly highest
adjusted score.  The accumulator starts at (none, -1). -/
def findBestGo (s : SuggestedItem) (used : List String) (mset : List WardrobeItem) :
    List WardrobeItem → Option WardrobeItem → ℚ → Except PyErr (Option WardrobeItem × ℚ)
  | [], best, hs => .ok (best, hs)
  | item :: rest, best, hs =>
    if item.item_id ∈ used then findBestGo s used mset rest best hs
    else
      match s.type with
      | none => .error (.keyError "type")
      | some st =>
        if normStr item.type = normStr st then
          let sc := adjusted_score s mset item
          if sc > hs then findBestGo s used mset rest (some item) sc
          else findBestGo s used mset rest best hs
        else findBestGo s used mset rest best hs

/-- find_best_match models the source function. -/
def find_best_match (s : SuggestedItem) (wb : List WardrobeItem)
    (used : List String) (mset : List WardrobeItem) : Except PyErr (Option WardrobeItem × ℚ) :=
  findBestGo s used mset wb none (-1)

/-- SuggestionEcho is the suggestion sub-dictionary copied into every
MatchResult, each field read with an empty-string default. -/
structure SuggestionEcho where
  type : String
  description : String
  color : String
  fabric : String
  pattern : String
deriving DecidableEq

/-- echoOf builds the suggestion echo from a suggested item. -/
def echoOf (it : SuggestedItem) : SuggestionEcho :=
  ⟨it.type.getD "", it.description.getD "", it.color.getD "", it.fabric.getD "",
    it.pattern.getD ""⟩

/-- MatchResult mirrors the two shapes of per-slot dictionary the matcher
appends: a matched wardrobe item with its score, or the no-match sentinel. -/
inductive MatchResult where
  | matched (item_id : String) (description : Option String) (type : String)
      (color : Option String) (fabric : Option String) (score : ℚ)
      (suggestion : SuggestionEcho)
  | noMatch (description : String) (type : String) (score : ℚ)
      (suggestion : SuggestionEcho)
deriving DecidableEq

/-- item_id of a slot result; the sentinel carries None. -/
def MatchResult.item_id : MatchResult → Option String
  | .matched i _ _ _ _ _ _ => some i
  | .noMatch _ _ _ _ => none

/-- score recorded in a slot result. -/
def MatchResult.score : MatchResult → ℚ
  | .matched _ _ _ _ _ sc _ => sc
  | .noMatch _ _ sc _ => sc

/-- OutfitMatch mirrors the per-outfit result dictionary. -/
structure OutfitMatch where
  outfit_name : String
  total_score : ℚ
  matched_items : List MatchResult
deriving DecidableEq

/-- MatchValue is the normal return value of match_outfit_with_wardrobe:
either one of the two error dictionaries the source returns for malformed
suggestions, or the list of per-outfit results. -/
inductive MatchValue where
  | errorFmt (msg : String)
  | outfitMatches (l : List OutfitMatch)
deriving DecidableEq

/-- CandidateOutfit models one entry of outfit_recommendations; both keys may
be absent. -/
structure CandidateOutfit where
  outfit_name : Option String
  clothing_items : Option (List SuggestedItem)
deriving DecidableEq

/-- OutfitSuggestion models the top-level suggestion dictionary. -/
structure OutfitSuggestion where
  outfit_recommendations : Option (List CandidateOutfit)
deriving DecidableEq

/-- processItems is the inner loop of match_outfit_with_wardrobe over the
clothing items of one outfit: on a match the item id joins the used set, the
item joins the matching set, and its score joins the running total; otherwise
the sentinel slot is recorded and the total is left unchanged. -/
def processItems (wb : List WardrobeItem) :
    List SuggestedItem → List String → List WardrobeItem →
      Except PyErr (List MatchResult × List String × ℚ)
  | [], used, _ => .ok ([], used, 0)
  | it :: rest, used, mset =>
    match find_best_match it wb used mset with
    | .error e => .error e
    | .ok (some best, score) =>
      match processItems wb rest (best.item_id :: used) (mset ++ [best]) with
      | .error e => .error e
      | .ok (slots, used2, t) =>
        .ok (MatchResult.matched best.item_id best.description best.type best.color
              best.fabric score (echoOf it) :: slots,
             used2, score + t)
    | .ok (none, _) =>
      match processItems wb rest used mset with
      | .error e => .error e
      | .ok (slots, used2, t) =>
        .ok (MatchResult.noMatch "No match found" (it.type.getD "") (-1) (echoOf it) :: slots,
             used2, t)

/-- goOutfits is the outer loop of match_outfit_with_wardrobe: the used set is
threaded from each outfit into the next, a missing clothing_items key makes
the whole call return the error dictionary, and a missing outfit_name key
raises a KeyError. -/
def goOutfits (wb : List WardrobeItem) :
    List CandidateOutfit → List String → Except PyErr MatchValue
  | [], _ => .ok (.outfitMatches [])
  | o :: rest, used =>
    match o.clothing_items with
    | none => .ok (.errorFmt "No clothing items in outfit suggestion")
    | some items =>
      match o.outfit_name with
      | none => .error (.keyError "outfit_name")
      | some name =>
        match processItems wb items used [] with
        | .error e => .error e
        | .ok (slots, used2, total) =>
          match goOutfits wb rest used2 with
          | .error e => .error e
          | .ok (.errorFmt m) => .ok (.errorFmt m)
          | .ok (.outfitMatches l) => .ok (.outfitMatches (⟨name, total, slots⟩ :: l))

/-- match_outfit_with_wardrobe models the source function: the error
dictionary when outfit_recommendations is absent, otherwise the loop over the
candidate outfits with an initially empty used set. -/
def match_outfit_with_wardrobe (sug : OutfitSuggestion) (wb : List WardrobeItem) :
    Except PyErr MatchValue :=
  match sug.outfit_recommendations with
  | none => .ok (.errorFmt "Invalid outfit suggestion format")
  | some outs => goOutfits wb outs []

/-- pyMaxBy models the Python builtin max with a key function: a ValueError on
an empty sequence, otherwise the first element with the maximal key. -/
def pyMaxBy (f : OutfitMatch → ℚ) : List OutfitMatch → Except String OutfitMatch
  | [] => .error "max() arg is an empty sequence"
  | x :: xs => .ok (xs.foldl (fun b y => if f y > f b then y else b) x)

/-- select_best_outfit models the ranking step of
generate_outfit_recommendation (outfit_service.py): take the outfit match with
the highest total_score and resolve its matched item ids back to wardrobe
items. -/
def select_best_outfit (outfit_matches : List OutfitMatch) (wardrobe : List WardrobeItem) :
    Except String (List WardrobeItem) :=
  match pyMaxBy (fun om => om.total_score) outfit_matches with
  | .error e => .error e
  | .ok best =>
    let ids := best.matched_items.map MatchResult.item_id
    .ok (wardrobe.filter (fun w => ids.contains (some w.item_id)))

/-- matchedIds collects the wardrobe item ids assigned in a slot list. -/
def matchedIds (slots : List MatchResult) : List String :=
  slots.filterMap MatchResult.item_id

/-- matchedScoreOf projects the score of an assigned slot, skipping
sentinels. -/
def matchedScoreOf : MatchResult → Option ℚ
  | .matched _ _ _ _ _ sc _ => some sc
  | .noMatch _ _ _ _ => none

/-- allMatchedIds collects every assigned wardrobe item id across a whole
result list, in order. -/
def allMatchedIds (l : List OutfitMatch) : List String :=
  l.flatMap (fun om => matchedIds om.matched_items)

/-- viableAbove decides whether the wardrobe holds an unused item of the
required normalized type whose adjusted score strictly exceeds the
threshold t. -/
def viableAbove (s : SuggestedItem) (st : String) (used : List String)
    (mset : List WardrobeItem) (t : ℚ) : List WardrobeItem → Bool
  | [] => false
  | w :: rest =>
    (!(used.contains w.item_id) && (normStr w.type == normStr st)
        && decide (adjusted_score s mset w > t))
      || viableAbove s st used mset t rest

/-- isAllUnmatchedOk decides that a matcher result is a normal list of outfit
results in which every slot is the no-match sentinel. -/
def isAllUnmatchedOk : Except PyErr MatchValue → Bool
  | .ok (.outfitMatches l) =>
    l.all (fun om => om.matched_items.all (fun r => r.item_id == none))
  | _ => false

/-
Concrete inputs used by the counterexamples and witnesses below.
-/

/-- wTopA is a wardrobe top with no optional attributes. -/
def wTopA : WardrobeItem := ⟨"A", "top", none, none, none, none, none, none, none⟩

/-- wBottomB is a wardrobe bottom with a color. -/
def wBottomB : WardrobeItem := ⟨"B", "bottom", some "blue", none, none, none, none, none, none⟩

/-- slotTop is a suggested item specifying only the type top. -/
def slotTop : SuggestedItem := ⟨some "top", none, none, none, none, none⟩

/-- wDupA and wDupB are two wardrobe tops with identical descriptions. -/
def wDupA : WardrobeItem := ⟨"A", "top", none, none, none, some "aaaa", none, none, none⟩

/-- wDupB is the second of the two near-duplicate tops. -/
def wDupB : WardrobeItem := ⟨"B", "top", none, none, none, some "aaaa", none, none, none⟩

/-- slotRedTop asks for a top whose color and pattern match neither duplicate,
so the raw score of either duplicate is the bare base score 1. -/
def slotRedTop : SuggestedItem := ⟨some "top", none, some "red", some "striped", none, none⟩

/-- catOnlySlot is a suggested item carrying a category key but no type key. -/
def catOnlySlot : SuggestedItem := ⟨none, some "top", none, none, none, none⟩

/-- echoTop is the suggestion echo of slotTop. -/
def echoTop : SuggestionEcho := ⟨"top", "", "", "", ""⟩

/-- sugTwoTopSlots is one candidate outfit with two top slots. -/
def sugTwoTopSlots : OutfitSuggestion := ⟨some [⟨some "Outfit", some [slotTop, slotTop]⟩]⟩

/-- c1om is the outfit result the matcher computes for sugTwoTopSlots against
the one-top wardrobe [wTopA]. -/
def c1om : OutfitMatch :=
  ⟨"Outfit", 7,
    [MatchResult.matched "A" none "top" none none 7 echoTop,
     MatchResult.noMatch "No match found" "top" (-1) echoTop]⟩

/-- sugTwoOutfits holds two candidate outfits, each with a single top slot. -/
def sugTwoOutfits : OutfitSuggestion :=
  ⟨some [⟨some "O1", some [slotTop]⟩, ⟨some "O2", some [slotTop]⟩]⟩

/-- c2om1 is the first outfit result for sugTwoOutfits against [wTopA]. -/
def c2om1 : OutfitMatch :=
  ⟨"O1", 7, [MatchResult.matched "A" none "top" none none 7 echoTop]⟩

/-- c2om2 is the second outfit result: the single top was consumed by the
first outfit, so its slot is the sentinel. -/
def c2om2 : OutfitMatch :=
  ⟨"O2", 0, [MatchResult.noMatch "No match found" "top" (-1) echoTop]⟩

/-- sugMissingItems has one candidate outfit lacking the clothing_items key. -/
def sugMissingItems : OutfitSuggestion := ⟨some [⟨some "O", none⟩]⟩

/-- sugOneEmptyOutfit has one well-shaped candidate outfit with an empty item
list. -/
def sugOneEmptyOutfit : OutfitSuggestion := ⟨some [⟨some "O", some []⟩]⟩

/-- wPunct is a wardrobe top whose description is punctuation only. -/
def wPunct : WardrobeItem := ⟨"P", "top", none, none, none, some "!!!", none, none, none⟩

/-- slotPunct is a suggested top whose description is punctuation only. -/
def slotPunct : SuggestedItem := ⟨some "top", none, none, none, none, some "???"⟩

/-
Loop invariants of the assignment engine.
-/

/-- a successful scan either returns the accumulator or picks an unused item
from the scanned wardrobe list. -/
theorem findBestGo_mem (s : SuggestedItem) (used : List String) (mset : List WardrobeItem) :
    ∀ wb b0 h0 w sc, findBestGo s used mset wb b0 h0 = .ok (some w, sc) →
      b0 = some w ∨ (w ∈ wb ∧ ¬ w.item_id ∈ used) := by
  intro wb
  induction wb with
  | nil =>
    intro b0 h0 w sc h
    simp only [findBestGo, Except.ok.injEq, Prod.mk.injEq] at h
    exact Or.inl h.1
  | cons item rest ih =>
    intro b0 h0 w sc h
    rw [findBestGo] at h
    by_cases hmem : item.item_id ∈ used
    · rw [if_pos hmem] at h
      rcases ih _ _ _ _ h with h1 | h2
      · exact Or.inl h1
      · exact Or.inr ⟨List.mem_cons_of_mem _ h2.1, h2.2⟩
    · rw [if_neg hmem] at h
      cases hty : s.type with
      | none => rw [hty] at h; simp at h
      | some st =>
        simp only [hty] at h
        by_cases htm : normStr item.type = normStr st
        · rw [if_pos htm] at h
          by_cases hgt : adjusted_score s mset item > h0
          · rw [if_pos hgt] at h
            rcases ih _ _ _ _ h with h1 | h2
            · rcases Option.some.inj h1 with rfl
              exact Or.inr ⟨List.mem_cons_self _ _, hmem⟩
            · exact Or.inr ⟨List.mem_cons_of_mem _ h2.1, h2.2⟩
          · rw [if_neg hgt] at h
            rcases ih _ _ _ _ h with h1 | h2
            · exact Or.inl h1
            · exact Or.inr ⟨List.mem_cons_of_mem _ h2.1, h2.2⟩
        · rw [if_neg htm] at h
          rcases ih _ _ _ _ h with h1 | h2
          · exact Or.inl h1
          · exact Or.inr ⟨List.mem_cons_of_mem _ h2.1, h2.2⟩

/-- when the scan returns no item, the accumulator was never updated, so the
returned score is the initial one. -/
theorem findBestGo_none (s : SuggestedItem) (used : List String) (mset : List WardrobeItem) :
    ∀ wb b0 h0 sc, findBestGo s used mset wb b0 h0 = .ok (none, sc) →
      b0 = none ∧ sc = h0 := by
  intro wb
  induction wb with
  | nil =>
    intro b0 h0 sc h
    simp only [findBestGo, Except.ok.injEq, Prod.mk.injEq] at h
    exact ⟨h.1, h.2.symm⟩
  | cons item rest ih =>
    intro b0 h0 sc h
    rw [findBestGo] at h
    by_cases hmem : item.item_id ∈ used
    · rw [if_pos hmem] at h
      exact ih _ _ _ h
    · rw [if_neg hmem] at h
      cases hty : s.type with
      | none => rw [hty] at h; simp at h
      | some st =>
        simp only [hty] at h
        by_cases htm : normStr item.type = normStr st
        · rw [if_pos htm] at h
          by_cases hgt : adjusted_score s mset item > h0
          · rw [if_pos hgt] at h
            exact absurd (ih _ _ _ h).1 (by simp)
          · rw [if_neg hgt] at h
            exact ih _ _ _ h
        · rw [if_neg htm] at h
          exact ih _ _ _ h

/-- the scan returns an item exactly when the accumulator already held one or
some unused same-type candidate has adjusted score strictly above the running
threshold. -/
theorem findBestGo_viable (s : SuggestedItem) (st : String) (used : List String)
    (mset : List WardrobeItem) (hst : s.type = some st) :
    ∀ wb b0 h0 b sc, findBestGo s used mset wb b0 h0 = .ok (b, sc) →
      b.isSome = (b0.isSome || viableAbove s st used mset h0 wb) := by
  intro wb
  induction wb with
  | nil =>
    intro b0 h0 b sc h
    simp only [findBestGo, Except.ok.injEq, Prod.mk.injEq] at h
    rw [← h.1]
    simp [viableAbove]
  | cons item rest ih =>
    intro b0 h0 b sc h
    rw [findBestGo] at h
    by_cases hmem : item.item_id ∈ used
    · rw [if_pos hmem] at h
      simp [viableAbove, hmem, ih _ _ _ _ h]
    · rw [if_neg hmem] at h
      simp only [hst] at h
      by_cases htm : normStr item.type = normStr st
      · rw [if_pos htm] at h
        by_cases hgt : adjusted_score s mset item > h0
        · rw [if_pos hgt] at h
          have hb := ih _ _ _ _ h
          simp only [Option.isSome_some, Bool.true_or] at hb
          simp [viableAbove, hmem, htm, hgt, hb]
        · rw [if_neg hgt] at h
          simp [viableAbove, hmem, htm, hgt, ih _ _ _ _ h]
      · rw [if_neg htm] at h
        have htm2 : (normStr item.type == normStr st) = false := beq_eq_false_iff_ne.mpr htm
        simp [viableAbove, hmem, htm2, ih _ _ _ _ h]

/-- processItems threads the used set faithfully: the final used set is the
assigned ids (reversed) on top of the initial one, distinctness of the used
set is preserved, and the returned total is the sum of the assigned slot
scores only. -/
theorem processItems_spec (wb : List WardrobeItem) :
    ∀ items used mset slots used2 t,
      processItems wb items used mset = .ok (slots, used2, t) →
      used2 = (matchedIds slots).reverse ++ used ∧
        (used.Nodup → used2.Nodup) ∧
        t = (slots.filterMap matchedScoreOf).sum := by
  intro items
  induction items with
  | nil =>
    intro used mset slots used2 t h
    simp only [processItems, Except.ok.injEq, Prod.mk.injEq] at h
    refine ⟨?_, ?_, ?_⟩
    · rw [← h.1, ← h.2.1]; simp [matchedIds]
    · intro hu; rw [← h.2.1]; exact hu
    · rw [← h.1, ← h.2.2]; simp
  | cons it rest ih =>
    intro used mset slots used2 t h
    cases hfb : find_best_match it wb used mset with
    | error e => simp [processItems, hfb] at h
    | ok res =>
      obtain ⟨ob, sc⟩ := res
      cases ob with
      | some best =>
        cases hrec : processItems wb rest (best.item_id :: used) (mset ++ [best]) with
        | error e => simp [processItems, hfb, hrec] at h
        | ok res2 =>
          obtain ⟨slots2, used3, t2⟩ := res2
          simp only [processItems, hfb, hrec, Except.ok.injEq, Prod.mk.injEq] at h
          obtain ⟨hs, hu3, ht⟩ := h
          obtain ⟨ih1, ih2, ih3⟩ := ih _ _ _ _ _ hrec
          have hfresh : ¬ best.item_id ∈ used := by
            simp only [find_best_match] at hfb
            rcases findBestGo_mem it used mset wb none (-1) best sc hfb with h1 | h2
            · simp at h1
            · exact h2.2
          subst hs; subst ht
          refine ⟨?_, ?_, ?_⟩
          · rw [← hu3, ih1]
            simp [matchedIds, MatchResult.item_id, List.append_assoc]
          · intro hu
            rw [← hu3]
            exact ih2 (List.nodup_cons.mpr ⟨hfresh, hu⟩)
          · rw [ih3]
            simp [matchedScoreOf]
      | none =>
        cases hrec : processItems wb rest used mset with
        | error e => simp [processItems, hfb, hrec] at h
        | ok res2 =>
          obtain ⟨slots2, used3, t2⟩ := res2
          simp only [processItems, hfb, hrec, Except.ok.injEq, Prod.mk.injEq] at h
          obtain ⟨hs, hu3, ht⟩ := h
          obtain ⟨ih1, ih2, ih3⟩ := ih _ _ _ _ _ hrec
          subst hs; subst ht
          refine ⟨?_, ?_, ?_⟩
          · rw [← hu3, ih1]
            simp [matchedIds, MatchResult.item_id]
          · intro hu
            rw [← hu3]
            exact ih2 hu
          · rw [ih3]
            simp [matchedScoreOf]

/-- with an empty wardrobe every slot gets the sentinel, the used set is
unchanged and the total is 0. -/
theorem processItems_nil_wardrobe :
    ∀ items used mset, processItems [] items used mset =
      .ok (items.map
            (fun it => MatchResult.noMatch "No match found" (it.type.getD "") (-1) (echoOf it)),
           used, 0) := by
  intro items
  induction items with
  | nil => intro used mset; rfl
  | cons it rest ih =>
    intro used mset
    have hfb : find_best_match it [] used mset = .ok (none, -1) := rfl
    simp [processItems, hfb, ih]

/-- every outfit result produced by the outer loop has a total_score equal to
the sum of the scores of its assigned slots. -/
theorem goOutfits_total (wb : List WardrobeItem) :
    ∀ outs used l, goOutfits wb outs used = .ok (.outfitMatches l) →
      ∀ om, om ∈ l → om.total_score = (om.matched_items.filterMap matchedScoreOf).sum := by
  intro outs
  induction outs with
  | nil =>
    intro used l h om hm
    simp only [goOutfits, Except.ok.injEq, MatchValue.outfitMatches.injEq] at h
    rw [← h] at hm
    simp at hm
  | cons o rest ih =>
    intro used l h om hm
    cases hci : o.clothing_items with
    | none => simp [goOutfits, hci] at h
    | some items =>
      cases hon : o.outfit_name with
      | none => simp [goOutfits, hci, hon] at h
      | some name =>
        cases hp : processItems wb items used [] with
        | error e => simp [goOutfits, hci, hon, hp] at h
        | ok res =>
          obtain ⟨slots, used2, total⟩ := res
          cases hg : goOutfits wb rest used2 with
          | error e => simp [goOutfits, hci, hon, hp, hg] at h
          | ok v =>
            cases v with
            | errorFmt m => simp [goOutfits, hci, hon, hp, hg] at h
            | outfitMatches l2 =>
              simp only [goOutfits, hci, hon, hp, hg, Except.ok.injEq,
                MatchValue.outfitMatches.injEq] at h
              rw [← h] at hm
              rcases List.mem_cons.mp hm with h1 | h2
              · subst h1
                have := (processItems_spec wb items used [] slots used2 total hp).2.2
                simpa using this
              · exact ih used2 l2 hg om h2

/-- the outer loop preserves distinctness of the used set: the ids assigned
across all outfits of the result, together with the initial used set, are
pairwise distinct. -/
theorem goOutfits_nodup (wb : List WardrobeItem) :
    ∀ outs used l, goOutfits wb outs used = .ok (.outfitMatches l) → used.Nodup →
      (allMatchedIds l ++ used).Nodup := by
  intro outs
  induction outs with
  | nil =>
    intro used l h hu
    simp only [goOutfits, Except.ok.injEq, MatchValue.outfitMatches.injEq] at h
    rw [← h]
    simpa [allMatchedIds]
  | cons o rest ih =>
    intro used l h hu
    cases hci : o.clothing_items with
    | none => simp [goOutfits, hci] at h
    | some items =>
      cases hon : o.outfit_name with
      | none => simp [goOutfits, hci, hon] at h
      | some name =>
        cases hp : processItems wb items used [] with
        | error e => simp [goOutfits, hci, hon, hp] at h
        | ok res =>
          obtain ⟨slots, used2, total⟩ := res
          cases hg : goOutfits wb rest used2 with
          | error e => simp [goOutfits, hci, hon, hp, hg] at h
          | ok v =>
            cases v with
            | errorFmt m => simp [goOutfits, hci, hon, hp, hg] at h
            | outfitMatches l2 =>
              simp only [goOutfits, hci, hon, hp, hg, Except.ok.injEq,
                MatchValue.outfitMatches.injEq] at h
              obtain ⟨hused2, hnd, -⟩ := processItems_spec wb items used [] slots used2 total hp
              have hu2 : used2.Nodup := hnd hu
              have hrest := ih used2 l2 hg hu2
              rw [← h]
              have hall : allMatchedIds ((⟨name, total, slots⟩ : OutfitMatch) :: l2)
                  = matchedIds slots ++ allMatchedIds l2 := by
                simp [allMatchedIds]
              rw [hall]
              rw [hused2] at hrest
              have p1 : (allMatchedIds l2 ++ (matchedIds slots).reverse).Perm
                  (matchedIds slots ++ allMatchedIds l2) :=
                (List.perm_append_comm).trans
                  ((List.reverse_perm (matchedIds slots)).append_right (allMatchedIds l2))
              have hperm :
                  (allMatchedIds l2 ++ ((matchedIds slots).reverse ++ used)).Perm
                    ((matchedIds slots ++ allMatchedIds l2) ++ used) := by
                rw [← List.append_assoc]
                exact p1.append_right used
              exact hperm.nodup_iff.mp hrest

/-- the error dictionary for a missing clothing_items key is returned only
when some candidate outfit indeed lacks that key. -/
theorem goOutfits_errorFmt (wb : List WardrobeItem) :
    ∀ outs used m, goOutfits wb outs used = .ok (.errorFmt m) →
      (outs.any fun o => o.clothing_items.isNone) = true := by
  intro outs
  induction outs with
  | nil =>
    intro used m h
    simp [goOutfits] at h
  | cons o rest ih =>
    intro used m h
    cases hci : o.clothing_items with
    | none => simp [hci]
    | some items =>
      cases hon : o.outfit_name with
      | none => simp [goOutfits, hci, hon] at h
      | some name =>
        cases hp : processItems wb items used [] with
        | error e => simp [goOutfits, hci, hon, hp] at h
        | ok res =>
          obtain ⟨slots, used2, total⟩ := res
          cases hg : goOutfits wb rest used2 with
          | error e => simp [goOutfits, hci, hon, hp, hg] at h
          | ok v =>
            cases v with
            | errorFmt m2 => simp [ih used2 m2 hg]
            | outfitMatches l2 => simp [goOutfits, hci, hon, hp, hg] at h

/-- with an empty wardrobe, every well-shaped suggestion yields a normal
result in which every slot is the no-match sentinel. -/
theorem goOutfits_nil_wardrobe :
    ∀ outs used, (∀ o ∈ outs, o.outfit_name ≠ none ∧ o.clothing_items ≠ none) →
      isAllUnmatchedOk (goOutfits [] outs used) = true := by
  intro outs
  induction outs with
  | nil => intro used ho; rfl
  | cons o rest ih =>
    intro used ho
    obtain ⟨hn, hc⟩ := ho o (List.mem_cons_self o rest)
    cases hci : o.clothing_items with
    | none => exact absurd hci hc
    | some items =>
      cases hon : o.outfit_name with
      | none => exact absurd hon hn
      | some name =>
        have hrest := ih used (fun o2 ho2 => ho o2 (List.mem_cons_of_mem o ho2))
        cases hg : goOutfits [] rest used with
        | error e => rw [hg] at hrest; simp [isAllUnmatchedOk] at hrest
        | ok v =>
          cases v with
          | errorFmt m => rw [hg] at hrest; simp [isAllUnmatchedOk] at hrest
          | outfitMatches l2 =>
            rw [hg] at hrest
            simp only [goOutfits, hci, hon, processItems_nil_wardrobe, hg]
            simp only [isAllUnmatchedOk, List.all_cons] at hrest ⊢
            refine (Bool.and_eq_true _ _).mpr ⟨?_, hrest⟩
            simp [List.all_map, MatchResult.item_id]

/-- when every candidate outfit is well-shaped with an empty item list, the
matcher returns a normal result whose outfits have no slots at all. -/
theorem goOutfits_empty_items (wb : List WardrobeItem) :
    ∀ outs used, (∀ o ∈ outs, o.outfit_name ≠ none ∧ o.clothing_items = some []) →
      isAllUnmatchedOk (goOutfits wb outs used) = true := by
  intro outs
  induction outs with
  | nil => intro used ho; rfl
  | cons o rest ih =>
    intro used ho
    obtain ⟨hn, hc⟩ := ho o (List.mem_cons_self o rest)
    cases hon : o.outfit_name with
    | none => exact absurd hon hn
    | some name =>
      have hrest := ih used (fun o2 ho2 => ho o2 (List.mem_cons_of_mem o ho2))
      cases hg : goOutfits wb rest used with
      | error e => rw [hg] at hrest; simp [isAllUnmatchedOk] at hrest
      | ok v =>
        cases v with
        | errorFmt m => rw [hg] at hrest; simp [isAllUnmatchedOk] at hrest
        | outfitMatches l2 =>
          rw [hg] at hrest
          have hp : processItems wb [] used [] = .ok ([], used, 0) := rfl
          simp only [goOutfits, hc, hon, hp, hg]
          simp only [isAllUnmatchedOk, List.all_cons] at hrest ⊢
          refine (Bool.and_eq_true _ _).mpr ⟨?_, hrest⟩
          rfl

/-- components of a list with pairwise distinct flattened ids have pairwise
distinct ids of their own. -/
theorem nodup_allMatchedIds_part :
    ∀ l : List OutfitMatch, (allMatchedIds l).Nodup →
      ∀ om, om ∈ l → (matchedIds om.matched_items).Nodup := by
  intro l
  induction l with
  | nil => intro h om hm; simp at hm
  | cons a t ih =>
    intro h om hm
    have hsplit : allMatchedIds (a :: t) = matchedIds a.matched_items ++ allMatchedIds t := by
      simp [allMatchedIds]
    rw [hsplit] at h
    rcases List.mem_cons.mp hm with h1 | h2
    · subst h1
      exact h.of_append_left
    · exact ih h.of_append_right om h2

/-- C1, counterexample: with one candidate outfit holding two top slots and a
one-top wardrobe, the matcher returns total_score 7, while the sum of the two
recorded slot scores is 7 + (-1) = 6: the unmatched slot contributes nothing
to total_score, so total_score is not the sum of all slot scores. -/
theorem c1_counterexample :
    match_outfit_with_wardrobe sugTwoTopSlots [wTopA] = .ok (.outfitMatches [c1om]) ∧
      c1om.total_score = 7 ∧ (c1om.matched_items.map MatchResult.score).sum = 6 ∧
      c1om.total_score ≠ (c1om.matched_items.map MatchResult.score).sum := by
  refine ⟨by with_unfolding_all rfl, rfl, by with_unfolding_all decide,
    by with_unfolding_all decide⟩

/-- C2, counterexample: two candidate outfits each holding one top slot, with
a single top in the wardrobe.  The first outfit consumes the item and the
second outfit is left with the sentinel: the used set is not fresh per
candidate outfit, and the two outfits do not both receive the item. -/
theorem c2_counterexample :
    match_outfit_with_wardrobe sugTwoOutfits [wTopA] = .ok (.outfitMatches [c2om1, c2om2]) ∧
      matchedIds c2om1.matched_items = ["A"] ∧ matchedIds c2om2.matched_items = [] := by
  refine ⟨by with_unfolding_all rfl, rfl, rfl⟩

/-- C4: whenever the normalized wardrobe type differs from the normalized
resolved suggested type, get_match_score returns exactly -1, with no partial
credit from any other attribute. -/
theorem c4_type_gate (s : SuggestedItem) (w : WardrobeItem)
    (h : normStr w.type ≠ normStr (resolvedType s)) :
    get_match_score s w = -1 := by
  simp [get_match_score, h]

/-- C4, witness: a blue bottom against a suggested top scores -1. -/
theorem c4_type_gate_witness : get_match_score slotTop wBottomB = -1 :=
  c4_type_gate slotTop wBottomB (by decide)

/-- C5, counterexample: for the second top slot, the unused wardrobe item
wDupB has the required normalized type, yet its penalty-adjusted score is
1 - 2 = -1, which is not strictly above the initial best score -1, so
find_best_match returns the no-match sentinel even though a same-type
candidate exists. -/
theorem c5_counterexample :
    find_best_match slotRedTop [wDupA, wDupB] ["A"] [wDupA] = .ok (none, -1) ∧
      wDupB ∈ [wDupA, wDupB] ∧
      (!(List.contains ["A"] wDupB.item_id) && (normStr wDupB.type == normStr "top")) = true ∧
      adjusted_score slotRedTop [wDupA] wDupB = -1 := by
  refine ⟨by with_unfolding_all rfl, by decide, by decide, by with_unfolding_all decide⟩

/-- C6, counterexample: on a suggestion lacking outfit_recommendations the
matcher does not raise: it returns the error dictionary as its ordinary
return value (an ok value of the embedding, not an exception). -/
theorem c6_counterexample :
    match_outfit_with_wardrobe ⟨none⟩ [] = .ok (.errorFmt "Invalid outfit suggestion format") :=
  rfl

/-- C8: the claim is right and the code is wrong.  get_match_score resolves
the category of a type-less suggested item from its category field and scores
the pair 7, but find_best_match reads suggested_item of key type without a
fallback, so with any unused wardrobe item present the engine raises KeyError
instead of matching by category. -/
theorem c8_category_fallback_keyerror :
    get_match_score catOnlySlot wTopA = 7 ∧
      find_best_match catOnlySlot [wTopA] [] [] = .error (.keyError "type") := by
  refine ⟨by with_unfolding_all decide, rfl⟩

/-- C9: when the normalized types agree and both color values normalize to
the empty string, the color bonus of 2 is granted; likewise the pattern bonus
of 4 when both pattern values normalize to the empty string; consequently a
pair matching on type with no fabric and no wardrobe description scores
1 + 2 + 4 = 7 rather than the bare base score 1. -/
theorem c9_empty_attribute_bonuses (s : SuggestedItem) (w : WardrobeItem)
    (ht : normStr w.type = normStr (resolvedType s))
    (hwc : normalize w.color = "") (hsc : normStr (s.color.getD "") = "")
    (hwp : normalize w.pattern = "") (hsp : normStr (s.pattern.getD "") = "") :
    colorBonus s w = 2 ∧ patternBonus s w = 4 ∧
      (normalize w.fabric = "" → w.description = none → get_match_score s w = 7) := by
  refine ⟨by simp [colorBonus, hwc, hsc], by simp [patternBonus, hwp, hsp], ?_⟩
  intro hf hd
  simp [get_match_score, ht, colorBonus, patternBonus, fabricBonus, descBonus,
    get_text_similarity, hwc, hsc, hwp, hsp, hf, hd]
  norm_num

/-- C9, witness: a bare top against a bare wardrobe top scores 7. -/
theorem c9_empty_attribute_bonuses_witness :
    colorBonus slotTop wTopA = 2 ∧ patternBonus slotTop wTopA = 4 ∧
      get_match_score slotTop wTopA = 7 := by
  have h := c9_empty_attribute_bonuses slotTop wTopA (by decide) (by decide) (by decide)
    (by decide) (by decide)
  exact ⟨h.1, h.2.1, h.2.2 (by decide) rfl⟩

/-- C10: two non-empty strings whose normalization strips every character
yield text similarity 1 (the ratio of two empty sequences), and as wardrobe
and suggested descriptions they earn the full description bonus of 1.5. -/
theorem c10_degenerate_similarity (t1 t2 : String) (s : SuggestedItem) (w : WardrobeItem)
    (h1 : t1 ≠ "") (h2 : t2 ≠ "") (hn1 : normStr t1 = "") (hn2 : normStr t2 = "")
    (hw : w.description = some t1) (hs : s.description = some t2) :
    get_text_similarity (some t1) (some t2) = 1 ∧ descBonus s w = 3 / 2 := by
  have hsim : get_text_similarity (some t1) (some t2) = 1 := by
    rw [get_text_similarity, if_neg (by simp [h1, h2])]
    show ratioQ (normStr t1).toList (normStr t2).toList = 1
    rw [hn1, hn2]
    rfl
  refine ⟨hsim, ?_⟩
  rw [descBonus, hw, hs]
  show get_text_similarity (some t1) (some (Option.getD (some t2) "")) * ((3 : ℚ) / 2) = 3 / 2
  rw [Option.getD, hsim]
  norm_num

/-- C10, witness: the punctuation-only descriptions of wPunct and slotPunct
score similarity 1 and the full 1.5 description bonus. -/
theorem c10_degenerate_similarity_witness :
    get_text_similarity (some "!!!") (some "???") = 1 ∧ descBonus slotPunct wPunct = 3 / 2 :=
  c10_degenerate_similarity "!!!" "???" slotPunct wPunct (by decide) (by decide)
    (by decide) (by decide) rfl rfl

/-- C1, amended: for every suggestion and wardrobe, the total_score of every
returned outfit result equals the sum of the scores of its assigned slots
only; unmatched slots record score -1 in their MatchResult but contribute
nothing to total_score. -/
theorem c1_total_is_matched_sum (sug : OutfitSuggestion) (wb : List WardrobeItem)
    (l : List OutfitMatch) (om : OutfitMatch)
    (h : match_outfit_with_wardrobe sug wb = .ok (.outfitMatches l)) (hm : om ∈ l) :
    om.total_score = (om.matched_items.filterMap matchedScoreOf).sum := by
  cases hr : sug.outfit_recommendations with
  | none => simp [match_outfit_with_wardrobe, hr] at h
  | some outs =>
    simp only [match_outfit_with_wardrobe, hr] at h
    exact goOutfits_total wb outs [] l h om hm

/-- C1, witness of the amended theorem on the two-top-slot input. -/
theorem c1_total_is_matched_sum_witness :
    c1om.total_score = (c1om.matched_items.filterMap matchedScoreOf).sum :=
  c1_total_is_matched_sum sugTwoTopSlots [wTopA] [c1om] c1om (by with_unfolding_all rfl)
    (List.mem_singleton.mpr rfl)

/-- C2, amended: the used-items set is shared across all candidate outfits of
one call, so a wardrobe item assigned in one outfit is unavailable to every
later outfit: across the whole returned list no item id is assigned twice. -/
theorem c2_used_items_shared (sug : OutfitSuggestion) (wb : List WardrobeItem)
    (l : List OutfitMatch) (h : match_outfit_with_wardrobe sug wb = .ok (.outfitMatches l)) :
    (allMatchedIds l).Nodup := by
  cases hr : sug.outfit_recommendations with
  | none => simp [match_outfit_with_wardrobe, hr] at h
  | some outs =>
    simp only [match_outfit_with_wardrobe, hr] at h
    simpa using goOutfits_nodup wb outs [] l h List.nodup_nil

/-- C2, witness of the amended theorem on the two-outfit input. -/
theorem c2_used_items_shared_witness : (allMatchedIds [c2om1, c2om2]).Nodup :=
  c2_used_items_shared sugTwoOutfits [wTopA] [c2om1, c2om2] (by with_unfolding_all rfl)

/-- C3: within every single outfit result returned by the matcher, no
wardrobe item id appears in more than one slot. -/
theorem c3_unique_within_outfit (sug : OutfitSuggestion) (wb : List WardrobeItem)
    (l : List OutfitMatch) (om : OutfitMatch)
    (h : match_outfit_with_wardrobe sug wb = .ok (.outfitMatches l)) (hm : om ∈ l) :
    (matchedIds om.matched_items).Nodup := by
  cases hr : sug.outfit_recommendations with
  | none => simp [match_outfit_with_wardrobe, hr] at h
  | some outs =>
    simp only [match_outfit_with_wardrobe, hr] at h
    have hall := goOutfits_nodup wb outs [] l h List.nodup_nil
    exact nodup_allMatchedIds_part l (by simpa using hall) om hm

/-- C3, witness on the two-top-slot input. -/
theorem c3_unique_within_outfit_witness : (matchedIds c1om.matched_items).Nodup :=
  c3_unique_within_outfit sugTwoTopSlots [wTopA] [c1om] c1om (by with_unfolding_all rfl)
    (List.mem_singleton.mpr rfl)

/-- C5, amended: a slot is assigned an item exactly when some unused
same-type candidate has penalty-adjusted score strictly greater than -1;
adjusted scores in (-1, 0) are still accepted, but candidates whose adjusted
score falls to -1 or below are rejected, and the sentinel (score -1) is then
recorded even though a same-type candidate exists. -/
theorem c5_acceptance_iff_viable (s : SuggestedItem) (st : String) (wb : List WardrobeItem)
    (used : List String) (mset : List WardrobeItem) (b : Option WardrobeItem) (sc : ℚ)
    (hst : s.type = some st)
    (h : find_best_match s wb used mset = .ok (b, sc)) :
    b.isSome = viableAbove s st used mset (-1) wb ∧ (b = none → sc = -1) := by
  constructor
  · have hv := findBestGo_viable s st used mset hst wb none (-1) b sc
      (by simpa [find_best_match] using h)
    simpa using hv
  · intro hb
    subst hb
    exact (findBestGo_none s used mset wb none (-1) sc
      (by simpa [find_best_match] using h)).2

/-- C5, witness of the amended theorem at the rejected near-duplicate. -/
theorem c5_acceptance_iff_viable_witness :
    (none : Option WardrobeItem).isSome
        = viableAbove slotRedTop "top" ["A"] [wDupA] (-1) [wDupA, wDupB] ∧
      ((none : Option WardrobeItem) = none → (-1 : ℚ) = -1) :=
  c5_acceptance_iff_viable slotRedTop "top" [wDupA, wDupB] ["A"] [wDupA] none (-1) rfl
    (by with_unfolding_all rfl)

/-- C6, amended: the matcher signals a malformed suggestion by returning an
error dictionary as its ordinary return value, never by raising: the error
dictionary is returned when outfit_recommendations is absent, and whenever an
error dictionary is returned the suggestion lacked outfit_recommendations or
some candidate outfit lacked clothing_items; on well-shaped input no error
dictionary is ever returned. -/
theorem c6_malformed_error_dict (sug : OutfitSuggestion) (wb : List WardrobeItem) :
    (sug.outfit_recommendations = none →
      match_outfit_with_wardrobe sug wb = .ok (.errorFmt "Invalid outfit suggestion format")) ∧
    (∀ m, match_outfit_with_wardrobe sug wb = .ok (.errorFmt m) →
      sug.outfit_recommendations = none ∨
        ((sug.outfit_recommendations.getD []).any fun o => o.clothing_items.isNone) = true) := by
  constructor
  · intro hr
    simp [match_outfit_with_wardrobe, hr]
  · intro m h
    cases hr : sug.outfit_recommendations with
    | none => exact Or.inl rfl
    | some outs =>
      refine Or.inr ?_
      simp only [match_outfit_with_wardrobe, hr] at h
      simpa [hr] using goOutfits_errorFmt wb outs [] m h

/-- C6, witness: a suggestion whose only outfit lacks clothing_items is
reported malformed through the returned error dictionary. -/
theorem c6_malformed_error_dict_witness :
    sugMissingItems.outfit_recommendations = none ∨
      ((sugMissingItems.outfit_recommendations.getD []).any fun o => o.clothing_items.isNone)
        = true :=
  (c6_malformed_error_dict sugMissingItems []).2 "No clothing items in outfit suggestion" rfl

/-- C7: with zero candidate outfits the matcher returns an empty result list
and the ranking step fails with the error of max() on an empty sequence (the
NoCandidateOutfits failure of the spec); an empty wardrobe, or empty
per-outfit item lists, are legal and yield a normal result whose slots are
all unmatched, not an error. -/
theorem c7_zero_and_degenerate_outfits (sug : OutfitSuggestion) (outs : List CandidateOutfit)
    (wb : List WardrobeItem) (h : sug.outfit_recommendations = some outs) :
    (outs = [] → match_outfit_with_wardrobe sug wb = .ok (.outfitMatches []) ∧
      select_best_outfit [] wb = .error "max() arg is an empty sequence") ∧
    ((∀ o ∈ outs, o.outfit_name ≠ none ∧ o.clothing_items ≠ none) →
      isAllUnmatchedOk (match_outfit_with_wardrobe sug []) = true) ∧
    ((∀ o ∈ outs, o.outfit_name ≠ none ∧ o.clothing_items = some []) →
      isAllUnmatchedOk (match_outfit_with_wardrobe sug wb) = true) := by
  refine ⟨?_, ?_, ?_⟩
  · rintro rfl
    exact ⟨by simp [match_outfit_with_wardrobe, h, goOutfits], rfl⟩
  · intro ho
    simp only [match_outfit_with_wardrobe, h]
    exact goOutfits_nil_wardrobe outs [] ho
  · intro ho
    simp only [match_outfit_with_wardrobe, h]
    exact goOutfits_empty_items wb outs [] ho

/-- C7, witness: the empty recommendation list yields an empty result and the
ranking step errors. -/
theorem c7_zero_and_degenerate_outfits_witness :
    match_outfit_with_wardrobe ⟨some []⟩ [] = .ok (.outfitMatches []) ∧
      select_best_outfit [] [] = .error "max() arg is an empty sequence" :=
  (c7_zero_and_degenerate_outfits ⟨some []⟩ [] [] rfl).1 rfl

end Fashionmate
